import Mathlib

/-!
Verification of the tool-orchestration loop and the search-tool formatting
logic of a retrieval-augmented chat backend.  The definitions below are a
shallow embedding of `backend/search_tools.py` and `backend/ai_generator.py`:
Python dictionaries with optional keys become `Option` fields, raised
exceptions become `Except.error`, and the external collaborators (the
Anthropic client, the vector store, the course catalog) become function
parameters, since the embedded code only consumes their results.
-/

namespace SearchTools

/-- A source citation as built in `CourseSearchTool._format_results`:
display text plus an optional hyperlink. -/
structure Source where
  text : String
  link : Option String
deriving DecidableEq, Repr

/-- The metadata dictionary attached to one chunk.  `meta.get("course_title")`
and `meta.get("lesson_number")` in Python return `None` both for an absent key
and for a stored null, so each key is one `Option` field. -/
structure ChunkMeta where
  course_title : Option String
  lesson_number : Option Int
deriving DecidableEq, Repr

/-- `SearchResults` as consumed by `CourseSearchTool.execute` and
`_format_results`: parallel documents/metadata lists plus an optional error
string.  (The parallel distances list is never read by the tool and is
omitted.) -/
structure SearchResults where
  documents : List String
  metadata : List ChunkMeta
  error : Option String
deriving DecidableEq, Repr

/-- Modelled from the spec: `SearchResults.is_empty` is defined in
`vector_store.py`, which is not among the sources at hand.  The spec's data
model makes the sequences being empty the mark of an empty result, so
emptiness is emptiness of the documents list. -/
def SearchResults.is_empty (r : SearchResults) : Bool :=
  r.documents.isEmpty

/-- One entry of a course's parsed `lessons_json` list, with the fields
`_get_lesson_link` reads; each is `lesson.get(...)` and possibly absent. -/
structure Lesson where
  lesson_number : Option Int
  lesson_link : Option String
deriving DecidableEq, Repr

/-- The course catalog as `_get_lesson_link` consumes it: a point lookup from
course title to the parsed `lessons_json` list.  `none` bundles every failure
path of the Python `try` block (missing metadata, missing `lessons_json`,
parse or storage exception), each of which makes the lookup yield `None`. -/
def Catalog := String → Option (List Lesson)

/-- `CourseSearchTool._get_lesson_link`: `None` immediately when no lesson
number is given; otherwise scan the catalog's lesson list for the first entry
whose number matches and return its (possibly absent) link. -/
def get_lesson_link (catalog : Catalog) (course_title : String)
    (lesson_number : Option Int) : Option String :=
  match lesson_number with
  | none => none
  | some n =>
    match catalog course_title with
    | none => none
    | some lessons =>
      match lessons.find? (fun l => l.lesson_number == some n) with
      | none => none
      | some l => l.lesson_link

/-- The sort key used by `_format_results`: the lesson number, with an absent
number mapped to the sentinel `-1`. -/
def sort_key (m : ChunkMeta) : Int :=
  match m.lesson_number with
  | some n => n
  | none => -1

/-- `combined = list(zip(results.documents, results.metadata))` followed by
`combined.sort(key=...)`.  Python `list.sort` is a stable ascending sort; a
stable insertion sort is observationally identical. -/
def combined_sorted (r : SearchResults) : List (String × ChunkMeta) :=
  List.insertionSort (fun a b => sort_key a.2 ≤ sort_key b.2)
    (r.documents.zip r.metadata)

/-- The bracketed context header and chunk text built for one match in the
loop body of `_format_results`. -/
def render_match (p : String × ChunkMeta) : String :=
  let course_title := p.2.course_title.getD "unknown"
  let header :=
    match p.2.lesson_number with
    | some n => "[" ++ course_title ++ " - Lesson " ++ toString n ++ "]"
    | none => "[" ++ course_title ++ "]"
  header ++ "\n" ++ p.1

/-- The structured source recorded for one match in `_format_results`. -/
def source_of (catalog : Catalog) (p : String × ChunkMeta) : Source :=
  let course_title := p.2.course_title.getD "unknown"
  let source_text :=
    match p.2.lesson_number with
    | some n => course_title ++ " - Lesson " ++ toString n
    | none => course_title
  { text := source_text
    link := get_lesson_link catalog course_title p.2.lesson_number }

/-- `CourseSearchTool._format_results`: sort the zipped matches, render each,
record one source per match, and join the renderings with blank lines.
Returns the formatted text together with the `sources` list that the Python
method assigns to `self.last_sources` just before returning. -/
def format_results (catalog : Catalog) (r : SearchResults) :
    String × List Source :=
  let combined := combined_sorted r
  (String.intercalate "\n\n" (combined.map render_match),
   combined.map (source_of catalog))

/-- Python truthiness of the optional string filter (`if course_name:`):
present and non-empty. -/
def truthyStr : Option String → Bool
  | some s => !s.isEmpty
  | none => false

/-- Python truthiness of the optional integer filter (`if lesson_number:`):
present and non-zero — in particular lesson number `0` is falsy here. -/
def truthyInt : Option Int → Bool
  | some n => n != 0
  | none => false

/-- The vector store's unified search interface, a parameter here: `execute`
only consumes the `SearchResults` it returns. -/
def Store := String → Option String → Option Int → SearchResults

/-- `CourseSearchTool.execute`.  The tool's mutable `last_sources` field is
passed explicitly: the value before the call goes in and the (possibly
unchanged) value after the call comes out with the returned text. -/
def execute (store : Store) (catalog : Catalog) (last_sources : List Source)
    (query : String) (course_name : Option String)
    (lesson_number : Option Int) : String × List Source :=
  let results := store query course_name lesson_number
  match results.error with
  | some e => (e, last_sources)
  | none =>
    if results.is_empty then
      let filter_info :=
        (if truthyStr course_name then
          " in course \x27" ++ course_name.getD "" ++ "\x27"
         else "")
        ++ (if truthyInt lesson_number then
          " in lesson " ++ toString (lesson_number.getD 0)
         else "")
      ("No relevant content found" ++ filter_info ++ ".", last_sources)
    else
      format_results catalog results

/-- `ToolManager.get_last_sources`: scan the registered tools in registration
order (Python dict insertion order) and return the first truthy
`last_sources`, else `[]`.  A tool is `none` when it has no `last_sources`
attribute and `some l` when the attribute holds `l`. -/
def get_last_sources : List (Option (List Source)) → List Source
  | [] => []
  | none :: rest => get_last_sources rest
  | some l :: rest => if l.isEmpty then get_last_sources rest else l

/-- The first registered tool state holding a non-empty citation list, the
characterization the registry actually implements. -/
def first_nonempty (ts : List (Option (List Source))) : Option (List Source) :=
  ts.findSome? (fun o => o.bind (fun l => if l.isEmpty then none else some l))

/-- A population event: the tool at registration index `i` stores the
citation list `srcs` (what `_format_results` does via
`self.last_sources = sources`). -/
structure PopulateEvent where
  toolIdx : Nat
  srcs : List Source
deriving DecidableEq, Repr

/-- Apply one population event to the registered tool states. -/
def apply_event (ts : List (Option (List Source))) (e : PopulateEvent) :
    List (Option (List Source)) :=
  ts.set e.toolIdx (some e.srcs)

/-- Run a sequence of population events in order. -/
def run_events (ts : List (Option (List Source))) (es : List PopulateEvent) :
    List (Option (List Source)) :=
  es.foldl apply_event ts

/-- The citations of whichever registered tool most recently populated them:
the citation list stored by the last population event of the trace.  This is
the reading of the spec sentence under test, stated operationally. -/
def most_recent_population (es : List PopulateEvent) : Option (List Source) :=
  es.getLast?.map PopulateEvent.srcs

end SearchTools

namespace AIGenerator

/-- Keyword arguments of one tool invocation (`content_block.input`). -/
abbrev ToolInput := List (String × String)

/-- One content block of a model response: plain text, or a named tool
invocation with its call identifier and structured input. -/
inductive ContentBlock where
  | text (s : String)
  | toolUse (name : String) (id : String) (input : ToolInput)
deriving DecidableEq, Repr

/-- A model response: the stop reason (`"end_turn"`, `"tool_use"`, ...) and
the content blocks. -/
structure ModelResponse where
  stop_reason : String
  content : List ContentBlock
deriving DecidableEq, Repr

/-- One `tool_result` block sent back to the model. -/
structure ToolResult where
  tool_use_id : String
  content : String
  is_error : Bool
deriving DecidableEq, Repr

/-- The content of one conversation message: the user query string, an
assistant turn of content blocks, or a batch of tool results. -/
inductive MsgContent where
  | text (s : String)
  | blocks (bs : List ContentBlock)
  | results (rs : List ToolResult)
deriving DecidableEq, Repr

/-- One conversation message with its role string. -/
structure Message where
  role : String
  content : MsgContent
deriving DecidableEq, Repr

/-- The Anthropic client as a parameter of the embedding: one call maps the
messages list and the presence of the `tools` parameter to a response, or to
a raised exception (`Except.error`). -/
def Model := List Message → Bool → Except String ModelResponse

/-- `tool_manager.execute_tool` as a parameter: `Except.error` is a raised
exception, `Except.ok` the returned string (an unknown tool name returns a
textual "not found" message, hence an `ok`). -/
def ToolMgr := String → ToolInput → Except String String

/-- The observable trace of one `client.messages.create` call: the messages
passed and whether a `tools` parameter was passed. -/
structure ApiCall where
  messages : List Message
  has_tools : Bool
deriving DecidableEq, Repr

deriving instance DecidableEq for Except

/-- The outcome of one `generate_response` run: the returned string or the
exception that propagated to the caller, the trace of model calls made, and
the trace of tool executions performed, in order. -/
structure RunResult where
  result : Except String String
  calls : List ApiCall
  tool_execs : List (String × ToolInput)
deriving DecidableEq, Repr

/-- `AIGenerator.MAX_TOOL_ROUNDS`. -/
def MAX_TOOL_ROUNDS : Nat := 2

/-- `_create_error_response`: the fixed user-facing apology string. -/
def create_error_response : String :=
  "I apologize, but I encountered an error while processing your request. Please try rephrasing your question or ask something else."

/-- The fallback string of `_extract_text_response`. -/
def no_text_fallback : String :=
  "I apologize, but I couldn\x27t generate a proper response."

/-- `_extract_text_response`: scan the content blocks for the first block
with a truthy `text` attribute and return it; otherwise fall back to a fixed
apology.  (The Python guard `if response.content and len(...) > 0` only
short-circuits the same scan on an empty list.) -/
def extract_text_response : List ContentBlock → String
  | [] => no_text_fallback
  | .text s :: rest => if s.isEmpty then extract_text_response rest else s
  | .toolUse _ _ _ :: rest => extract_text_response rest

/-- The error text wrapped around a caught tool exception inside the round
loop of `_handle_tool_execution`. -/
def round_error_text (e : String) : String :=
  "Tool execution failed: " ++ e

/-- The error text wrapped around a caught tool exception inside
`_force_final_text_response`. -/
def final_error_text (e : String) : String :=
  "Error: " ++ e

/-- Dispatch of one `tool_use` block: the protected call to
`tool_manager.execute_tool` that yields a normal `tool_result` on success and
an `is_error`-tagged `tool_result` on a raised exception. -/
def exec_tool_block (err_text : String → String) (tm : ToolMgr)
    (name id : String) (input : ToolInput) : ToolResult :=
  match tm name input with
  | .ok r => { tool_use_id := id, content := r, is_error := false }
  | .error e => { tool_use_id := id, content := err_text e, is_error := true }

/-- The per-round tool loop (`for content_block in current_response.content`)
shared, up to the error text, by `_handle_tool_execution` and
`_force_final_text_response`: every `tool_use` block produces exactly one
result, in response order; other blocks are skipped. -/
def execute_tool_blocks (err_text : String → String) (tm : ToolMgr) :
    List ContentBlock → List ToolResult
  | [] => []
  | .text _ :: rest => execute_tool_blocks err_text tm rest
  | .toolUse name id input :: rest =>
    exec_tool_block err_text tm name id input
      :: execute_tool_blocks err_text tm rest

/-- The `(name, input)` pairs of the `tool_use` blocks of a response, in
order: the trace of tool executions one pass of the loop performs. -/
def tool_calls_of : List ContentBlock → List (String × ToolInput)
  | [] => []
  | .text _ :: rest => tool_calls_of rest
  | .toolUse name _ input :: rest => (name, input) :: tool_calls_of rest

/-- The `tool_use` blocks of a response as `(name, id, input)` triples, in
order. -/
def tool_use_list : List ContentBlock → List (String × String × ToolInput)
  | [] => []
  | .text _ :: rest => tool_use_list rest
  | .toolUse name id input :: rest => (name, id, input) :: tool_use_list rest

/-- The messages a round's next model call receives: the previous messages,
the assistant turn carrying the tool requests, and the whole batch of tool
results as a single user message. -/
def round_messages (tm : ToolMgr) (messages : List Message)
    (current : List ContentBlock) : List Message :=
  messages ++ [⟨"assistant", .blocks current⟩,
    ⟨"user", .results (execute_tool_blocks round_error_text tm current)⟩]

/-- The messages the forced final model call receives: previous messages,
the last assistant turn, and — when any tool ran — the final batch of tool
results. -/
def final_messages (tm : ToolMgr) (messages : List Message)
    (content : List ContentBlock) : List Message :=
  let msgs1 := messages ++ [⟨"assistant", .blocks content⟩]
  let results := execute_tool_blocks final_error_text tm content
  if results.isEmpty then msgs1 else msgs1 ++ [⟨"user", .results results⟩]

/-- `_force_final_text_response`: execute the pending tool calls of the last
response, then make one final model call with no `tools` parameter; an
exception from that call is caught and becomes the apology.  Returns the
outcome together with this function's own model-call and tool-execution
traces. -/
def force_final_text_response (model : Model) (tm : ToolMgr)
    (messages : List Message) (content : List ContentBlock) :
    Except String String × List ApiCall × List (String × ToolInput) :=
  match model (final_messages tm messages content) false with
  | .ok resp =>
    (.ok (extract_text_response resp.content),
     [⟨final_messages tm messages content, false⟩], tool_calls_of content)
  | .error _ =>
    (.ok create_error_response,
     [⟨final_messages tm messages content, false⟩], tool_calls_of content)

/-- The round loop of `_handle_tool_execution` (lines 126-220), recursing on
the rounds left: `rounds_left = MAX_TOOL_ROUNDS - round_num + 1`, so that
`round_num == MAX_TOOL_ROUNDS` is `rounds_left = 1`.  The `rounds_left = 0`
case is the exhausted `for` range.  Per round: append the assistant turn,
execute all tool calls (breaking out when there are none), append the result
batch, make the next model call with tools still available (an exception
becomes the apology), break out when the model stops requesting tools, force
finalization at the round cap, else recurse. -/
def handle_rounds (model : Model) (tm : ToolMgr) (has_tools : Bool) :
    Nat → List Message → List ContentBlock →
    Except String String × List ApiCall × List (String × ToolInput)
  | 0, _, current => (.ok (extract_text_response current), [], [])
  | n + 1, messages, current =>
    let results := execute_tool_blocks round_error_text tm current
    if results.isEmpty then
      (.ok (extract_text_response current), [], [])
    else
      let msgs2 := round_messages tm messages current
      let tr := tool_calls_of current
      match model msgs2 has_tools with
      | .error _ => (.ok create_error_response, [⟨msgs2, has_tools⟩], tr)
      | .ok resp =>
        if resp.stop_reason ≠ "tool_use" then
          (.ok (extract_text_response resp.content), [⟨msgs2, has_tools⟩], tr)
        else if n = 0 then
          let rest := force_final_text_response model tm msgs2 resp.content
          (rest.1, ⟨msgs2, has_tools⟩ :: rest.2.1, tr ++ rest.2.2)
        else
          let rest := handle_rounds model tm has_tools n msgs2 resp.content
          (rest.1, ⟨msgs2, has_tools⟩ :: rest.2.1, tr ++ rest.2.2)

/-- `_handle_tool_execution`: the round loop started on the initial tool-use
response, rounds numbered `1..MAX_TOOL_ROUNDS`. -/
def handle_tool_execution (model : Model) (tm : ToolMgr) (has_tools : Bool)
    (messages : List Message) (initial_content : List ContentBlock) :
    Except String String × List ApiCall × List (String × ToolInput) :=
  handle_rounds model tm has_tools MAX_TOOL_ROUNDS messages initial_content

/-- `response.content[0].text`, the direct-return path of `generate_response`
(line 107): raises on empty content (`IndexError`) and on a first block
without a `text` attribute (`AttributeError`). -/
def content_first_text : List ContentBlock → Except String String
  | [] => .error "IndexError: list index out of range"
  | .text s :: _ => .ok s
  | .toolUse _ _ _ :: _ => .error "AttributeError: text"

/-- `AIGenerator.generate_response`.  The initial model call is unprotected,
so its exception propagates; on a `tool_use` stop reason with a tool manager
present the round loop runs; otherwise the first content block's text is
returned directly.  `tools_given` is the Python truthiness of the `tools`
parameter; the system-prompt/history string is orthogonal to every property
verified here and is not tracked. -/
def generate_response (model : Model) (query : String) (tools_given : Bool)
    (tool_manager : Option ToolMgr) : RunResult :=
  let messages : List Message := [⟨"user", .text query⟩]
  match model messages tools_given with
  | .error e => ⟨.error e, [⟨messages, tools_given⟩], []⟩
  | .ok resp =>
    match tool_manager with
    | some tm =>
      if resp.stop_reason = "tool_use" then
        let rest := handle_tool_execution model tm tools_given messages
          resp.content
        ⟨rest.1, ⟨messages, tools_given⟩ :: rest.2.1, rest.2.2⟩
      else
        ⟨content_first_text resp.content, [⟨messages, tools_given⟩], []⟩
    | none =>
      ⟨content_first_text resp.content, [⟨messages, tools_given⟩], []⟩

end AIGenerator

open SearchTools AIGenerator

/-- A store whose every search comes back empty and error-free. -/
def empty_store : Store := fun _ _ _ => ⟨[], [], none⟩

/-- A store whose every search returns one match at lesson 2 of course C. -/
def one_store : Store := fun _ _ _ => ⟨["doc"], [⟨some "C", some 2⟩], none⟩

/-- A catalog with no entries at all. -/
def no_catalog : Catalog := fun _ => none

/-- A catalog in which every course has a lesson 1 carrying a hyperlink. -/
def rich_catalog : Catalog := fun _ => some [⟨some 1, some "http://x"⟩]

/-- A citation left behind by an earlier search. -/
def old_src : Source := ⟨"Old Course - Lesson 1", none⟩

/-- A search-result set with mixed and missing lesson numbers, out of
order. -/
def r4 : SearchResults :=
  ⟨["d3", "dN", "d1"],
   [⟨some "C", some 3⟩, ⟨some "C", none⟩, ⟨some "C", some 1⟩], none⟩

/-- Citations held by two distinct source-tracking tools. -/
def srcA : Source := ⟨"A", none⟩

/-- Citations held by two distinct source-tracking tools, second tool. -/
def srcB : Source := ⟨"B", none⟩

/-- A population trace: tool 0 stores its citations first, tool 1 after. -/
def c8_events : List PopulateEvent := [⟨0, [srcA]⟩, ⟨1, [srcB]⟩]

/-- A model that requests a tool on every call, forever. -/
def loop_model : Model := fun _ _ => .ok ⟨"tool_use", [.toolUse "t" "i" []]⟩

/-- A tool manager whose every execution succeeds. -/
def ok_mgr : ToolMgr := fun _ _ => .ok "r"

/-- A model whose every call raises. -/
def fail_model : Model := fun _ _ => .error "boom"

/-- A model that answers with an empty content sequence. -/
def empty_model : Model := fun _ _ => .ok ⟨"end_turn", []⟩

/-- A model that requests a tool on the opening call and raises on every
follow-up call (the messages list has grown beyond the single query). -/
def fail_after_first : Model := fun msgs _ =>
  if msgs.length ≤ 1 then .ok ⟨"tool_use", [.toolUse "t" "i" []]⟩
  else .error "api down"

/-- A model whose tool-use response opens with a text block. -/
def tool_use_text_model : Model := fun _ _ =>
  .ok ⟨"tool_use", [.text "direct answer", .toolUse "t" "i" []]⟩

/-- A tool manager failing on the tool named `bad` and succeeding on the
rest. -/
def c2_mgr : ToolMgr := fun name _ =>
  if name = "bad" then .error "boom" else .ok "fine"

/-- A response content with one succeeding and one failing tool call. -/
def c2_blocks : List ContentBlock :=
  [.toolUse "good" "1" [], .toolUse "bad" "2" []]

/-- Helper: membership in the sorted combined list gives membership of the
metadata component in the original metadata list. -/
theorem mem_combined_sorted_meta {r : SearchResults} {p : String × ChunkMeta}
    (hp : p ∈ combined_sorted r) : p.2 ∈ r.metadata := by
  have hz : p ∈ r.documents.zip r.metadata :=
    ((List.perm_insertionSort _ _).mem_iff).mp hp
  exact (List.of_mem_zip hz).2

/-- C3 counterexample: after an execution whose search comes back empty, the
stored citation state still holds the citation of an earlier search — it is
not overwritten at the start of the execution. -/
theorem stale_sources_after_empty_search :
    (execute empty_store no_catalog [old_src] "q" none none).2 = [old_src]
  ∧ [old_src] ≠ ([] : List Source) := by
  decide

/-- C3 (amended): `last_sources` is overwritten only by an execution that
reaches formatting — a non-empty, error-free search result — and then holds
exactly one citation per match of that search; an execution whose result
carries an error, or is empty, leaves `last_sources` unchanged. -/
theorem last_sources_update_characterization
    (store : Store) (catalog : Catalog) (prev : List Source)
    (q : String) (cn : Option String) (ln : Option Int) :
    ((store q cn ln).error.isSome = true →
      (execute store catalog prev q cn ln).2 = prev)
  ∧ ((store q cn ln).error = none → (store q cn ln).is_empty = true →
      (execute store catalog prev q cn ln).2 = prev)
  ∧ ((store q cn ln).error = none → (store q cn ln).is_empty = false →
      (execute store catalog prev q cn ln).2
        = (combined_sorted (store q cn ln)).map (source_of catalog)) := by
  refine ⟨fun h1 => ?_, fun h1 h2 => ?_, fun h1 h2 => ?_⟩
  · rcases h : (store q cn ln).error with _ | e
    · rw [h] at h1; simp at h1
    · simp [execute, h]
  · simp [execute, h1, h2]
  · simp [execute, h1, h2, format_results]

/-- Witness for the amended C3: a search with one match overwrites the stale
citation with exactly that match's citation; an empty search keeps it. -/
theorem last_sources_update_characterization_witness :
    (execute one_store no_catalog [old_src] "q" none none).2
      = [⟨"C - Lesson 2", none⟩]
  ∧ (execute empty_store no_catalog [old_src] "q2" none none).2 = [old_src] := by
  refine ⟨?_, ?_⟩
  · have h := (last_sources_update_characterization one_store no_catalog
      [old_src] "q" none none).2.2 (by decide) (by decide)
    exact h.trans (by decide)
  · exact (last_sources_update_characterization empty_store no_catalog
      [old_src] "q2" none none).2.1 (by decide) (by decide)

/-- C4: on a non-empty, error-free result set with equal-length parallel
lists, the formatted output renders the sorted matches joined by blank lines;
the sorted list is a permutation of the zipped matches of the same length,
its lesson keys are non-decreasing, and — when no real lesson number is
negative — every match lacking a lesson number precedes every match having
one. -/
theorem formatted_matches_sorted_missing_first
    (catalog : Catalog) (r : SearchResults)
    (herr : r.error = none) (hne : r.is_empty = false)
    (hlen : r.documents.length = r.metadata.length)
    (hpos : ∀ m ∈ r.metadata, 0 ≤ m.lesson_number.getD 0) :
    (format_results catalog r).1
        = String.intercalate "\n\n" ((combined_sorted r).map render_match)
    ∧ (combined_sorted r).length = r.documents.length
    ∧ (combined_sorted r).Perm (r.documents.zip r.metadata)
    ∧ List.Sorted (fun a b => sort_key a.2 ≤ sort_key b.2) (combined_sorted r)
    ∧ (combined_sorted r).Pairwise
        (fun a b => b.2.lesson_number = none → a.2.lesson_number = none) := by
  have hperm : (combined_sorted r).Perm (r.documents.zip r.metadata) :=
    List.perm_insertionSort _ _
  haveI : IsTotal (String × ChunkMeta)
      (fun a b => sort_key a.2 ≤ sort_key b.2) := ⟨fun a b => le_total _ _⟩
  haveI : IsTrans (String × ChunkMeta)
      (fun a b => sort_key a.2 ≤ sort_key b.2) :=
    ⟨fun _ _ _ h1 h2 => le_trans h1 h2⟩
  have hsorted : List.Sorted (fun a b => sort_key a.2 ≤ sort_key b.2)
      (combined_sorted r) := List.sorted_insertionSort _ _
  refine ⟨rfl, ?_, hperm, hsorted, ?_⟩
  · rw [hperm.length_eq, List.length_zip, hlen, min_self]
  · refine List.Pairwise.imp_of_mem ?_ hsorted
    intro a b ha hb hle hbnone
    rcases hm : a.2.lesson_number with _ | n
    · rfl
    · exfalso
      have hkb : sort_key b.2 = -1 := by simp [sort_key, hbnone]
      have hka : sort_key a.2 = n := by simp [sort_key, hm]
      have h0 : (0 : Int) ≤ n := by
        have := hpos a.2 (mem_combined_sorted_meta ha)
        simpa [hm] using this
      rw [hka, hkb] at hle
      omega

/-- Witness for C4 at a concrete mixed/missing-lesson result set. -/
theorem formatted_matches_sorted_missing_first_witness :
    (format_results no_catalog r4).1
        = String.intercalate "\n\n" ((combined_sorted r4).map render_match)
    ∧ (combined_sorted r4).length = r4.documents.length
    ∧ (combined_sorted r4).Perm (r4.documents.zip r4.metadata)
    ∧ List.Sorted (fun a b => sort_key a.2 ≤ sort_key b.2) (combined_sorted r4)
    ∧ (combined_sorted r4).Pairwise
        (fun a b => b.2.lesson_number = none → a.2.lesson_number = none) :=
  formatted_matches_sorted_missing_first no_catalog r4
    (by decide) (by decide) (by decide) (by decide)

/-- C7: the code drops the lesson qualifier for lesson number `0` in the
empty-result message (Python `if lesson_number:` is falsy at `0`), while the
same query with lesson `1` names the lesson — the spec demands that lesson
`0` be treated as present, so this is a bug at input `lesson_number=0`. -/
theorem execute_drops_lesson_zero_qualifier :
    (execute empty_store no_catalog [] "q" none (some 0)).1
      = "No relevant content found."
  ∧ (execute empty_store no_catalog [] "q" none (some 1)).1
      = "No relevant content found in lesson 1."
  ∧ (execute empty_store no_catalog [] "q" (some "MCP") (some 0)).1
      = "No relevant content found in course \x27MCP\x27."
  ∧ truthyInt (some 0) = false := by
  decide

/-- C8 counterexample: with two source-tracking tools, tool 0 populating
first and tool 1 populating later, the registry returns tool 0's citations —
the first registered non-empty state, not the most recently populated one. -/
theorem get_last_sources_not_most_recent :
    get_last_sources (run_events [some [], some []] c8_events) = [srcA]
  ∧ most_recent_population c8_events = some [srcB]
  ∧ [srcA] ≠ [srcB] := by
  decide

/-- C8 (amended): `get_last_sources` returns the citation list of the first
tool in registration order holding a non-empty list, and the empty list when
no registered tool holds citations. -/
theorem get_last_sources_first_nonempty
    (ts : List (Option (List Source))) :
    get_last_sources ts = (first_nonempty ts).getD [] := by
  induction ts with
  | nil => rfl
  | cons o rest ih =>
    rcases o with _ | l
    · simpa [get_last_sources, first_nonempty, List.findSome?_cons] using ih
    · by_cases h : l = []
      · subst h
        simpa [get_last_sources, first_nonempty, List.findSome?_cons] using ih
      · simp [get_last_sources, first_nonempty, List.findSome?_cons, h,
          List.isEmpty_iff]

/-- C10: the lesson-link lookup is `none` the moment the lesson number is
absent, for every catalog — so a lesson-less match's citation carries no
hyperlink even when the catalog has links for the course. -/
theorem lessonless_source_has_no_link
    (catalog : Catalog) (course_title : String) (p : String × ChunkMeta) :
    get_lesson_link catalog course_title none = none
  ∧ (p.2.lesson_number = none → (source_of catalog p).link = none) := by
  refine ⟨rfl, fun h => ?_⟩
  simp [source_of, get_lesson_link, h]

/-- Witness for C10: a catalog that does carry links, a match without a
lesson number — its recorded citation still has no link. -/
theorem lessonless_source_has_no_link_witness :
    get_lesson_link rich_catalog "C" none = none
  ∧ (source_of rich_catalog ("doc", ⟨some "C", none⟩)).link = none := by
  have h := lessonless_source_has_no_link rich_catalog "C"
    ("doc", ⟨some "C", none⟩)
  exact ⟨h.1, h.2 rfl⟩

/-- Helper: the forced finalization makes exactly one model call. -/
theorem force_final_calls_length (model : Model) (tm : ToolMgr)
    (msgs : List Message) (content : List ContentBlock) :
    (force_final_text_response model tm msgs content).2.1.length = 1 := by
  unfold force_final_text_response
  split <;> rfl

/-- Helper: the forced finalization never surfaces an exception. -/
theorem force_final_result_isOk (model : Model) (tm : ToolMgr)
    (msgs : List Message) (content : List ContentBlock) :
    (force_final_text_response model tm msgs content).1.isOk = true := by
  unfold force_final_text_response
  split <;> rfl

/-- Helper: starting with `n` rounds left, the round loop makes at most
`n + 1` model calls (one per round plus the forced finalization call). -/
theorem handle_rounds_call_bound (model : Model) (tm : ToolMgr) (ht : Bool) :
    ∀ (n : Nat) (msgs : List Message) (current : List ContentBlock),
    (handle_rounds model tm ht n msgs current).2.1.length ≤ n + 1 := by
  intro n
  induction n with
  | zero => intro msgs current; simp [handle_rounds]
  | succ n ih =>
    intro msgs current
    simp only [handle_rounds]
    split
    · simp
    · split
      · simp
      · split
        · simp
        · split
          · simp only [List.length_cons, force_final_calls_length]
            omega
          · simp only [List.length_cons]
            exact Nat.succ_le_succ (ih _ _)

/-- Helper: the round loop never surfaces an exception: every failure inside
is caught and converted to a string. -/
theorem handle_rounds_result_isOk (model : Model) (tm : ToolMgr) (ht : Bool) :
    ∀ (n : Nat) (msgs : List Message) (current : List ContentBlock),
    (handle_rounds model tm ht n msgs current).1.isOk = true := by
  intro n
  induction n with
  | zero => intro msgs current; rfl
  | succ n ih =>
    intro msgs current
    simp only [handle_rounds]
    split
    · rfl
    · split
      · rfl
      · split
        · rfl
        · split
          · simp only [force_final_result_isOk]
          · simp only []
            exact ih _ _

/-- C1 counterexample: a model that requests tools on every call drives one
`generate_response` through four model calls — the initial call, one call
after each of the two rounds, and the forced final call — exceeding
`MAX_TOOL_ROUNDS + 1 = 3`. -/
theorem four_model_calls_exceed_max_plus_one :
    (generate_response loop_model "q" true (some ok_mgr)).calls.length = 4
  ∧ ¬(4 ≤ MAX_TOOL_ROUNDS + 1) := by
  decide

/-- C1 (amended): one `generate_response` run makes at most
`MAX_TOOL_ROUNDS + 2` model calls in total — the initial call, at most one
call per round, and the forced finalization call, which is always issued
with no `tools` parameter. -/
theorem model_call_total_bound (model : Model) (tm : ToolMgr)
    (query : String) (tg : Bool) :
    (generate_response model query tg (some tm)).calls.length
        ≤ MAX_TOOL_ROUNDS + 2
  ∧ ∀ (msgs : List Message) (content : List ContentBlock),
      ((force_final_text_response model tm msgs content).2.1).map
          ApiCall.has_tools = [false] := by
  constructor
  · simp only [generate_response]
    split
    · simp [MAX_TOOL_ROUNDS]
    · split
      · simp only [handle_tool_execution, List.length_cons]
        rename_i resp heq h
        have hb := handle_rounds_call_bound model tm tg MAX_TOOL_ROUNDS
          [⟨"user", .text query⟩] resp.content
        simp only [MAX_TOOL_ROUNDS] at hb ⊢
        omega
      · simp [MAX_TOOL_ROUNDS]
  · intro msgs content
    unfold force_final_text_response
    split <;> rfl

/-- C2: one round executes exactly one tool call per `tool_use` block of the
response, in response order; a raised tool exception becomes an
`is_error`-tagged result while the other calls are unaffected; and whenever a
round executes any tools, the very next model call receives the conversation
extended by the assistant turn and the whole result batch as one user-role
message. -/
theorem tool_batch_execution_faithful (err_text : String → String)
    (tm : ToolMgr) (blocks : List ContentBlock) :
    execute_tool_blocks err_text tm blocks
        = (tool_use_list blocks).map
            (fun t => exec_tool_block err_text tm t.1 t.2.1 t.2.2)
    ∧ (∀ (name id : String) (input : ToolInput) (e : String),
        tm name input = .error e →
        exec_tool_block err_text tm name id input = ⟨id, err_text e, true⟩)
    ∧ (∀ (name id : String) (input : ToolInput) (r : String),
        tm name input = .ok r →
        exec_tool_block err_text tm name id input = ⟨id, r, false⟩)
    ∧ ∀ (model : Model) (ht : Bool) (msgs : List Message) (n : Nat),
        (execute_tool_blocks round_error_text tm blocks).isEmpty = false →
        (handle_rounds model tm ht (n+1) msgs blocks).2.1.head?
          = some ⟨round_messages tm msgs blocks, ht⟩ := by
  refine ⟨?_, ?_, ?_, ?_⟩
  · induction blocks with
    | nil => rfl
    | cons b rest ih =>
      cases b with
      | text s => simpa [execute_tool_blocks, tool_use_list] using ih
      | toolUse name id input =>
        simp [execute_tool_blocks, tool_use_list, ih]
  · intro name id input e h
    unfold exec_tool_block
    rw [h]
  · intro name id input r h
    unfold exec_tool_block
    rw [h]
  · intro model ht msgs n h
    simp only [handle_rounds, h]
    split
    · rename_i hc
      simp at hc
    · split
      · rfl
      · split
        · rfl
        · split
          · rfl
          · rfl

/-- Witness for C2: a batch with one succeeding and one failing tool call
yields both results in order, the failing one error-tagged, and the next
model call receives the full batch. -/
theorem tool_batch_execution_faithful_witness :
    execute_tool_blocks round_error_text c2_mgr c2_blocks
        = (tool_use_list c2_blocks).map
            (fun t => exec_tool_block round_error_text c2_mgr t.1 t.2.1 t.2.2)
  ∧ exec_tool_block round_error_text c2_mgr "bad" "2" []
      = ⟨"2", round_error_text "boom", true⟩
  ∧ exec_tool_block round_error_text c2_mgr "good" "1" []
      = ⟨"1", "fine", false⟩
  ∧ (handle_rounds loop_model c2_mgr true 2 [] c2_blocks).2.1.head?
      = some ⟨round_messages c2_mgr [] c2_blocks, true⟩ := by
  have h := tool_batch_execution_faithful round_error_text c2_mgr c2_blocks
  exact ⟨h.1, h.2.1 "bad" "2" [] "boom" (by decide),
    h.2.2.1 "good" "1" [] "fine" (by decide),
    h.2.2.2 loop_model true [] 1 (by decide)⟩

/-- C5 counterexample: when the initial model call raises, the exception
propagates out of `generate_response` instead of becoming the apology
string. -/
theorem initial_model_call_failure_propagates :
    (generate_response fail_model "q" true (some ok_mgr)).result
      = .error "boom"
  ∧ (Except.error "boom" : Except String String)
      ≠ .ok create_error_response := by
  decide

/-- C5 (amended): a model-call failure during any round of the tool loop, or
during the forced finalization, is caught and yields the fixed apology, and
the failing call is the last call made — it is never retried. -/
theorem round_model_call_failure_yields_apology :
    (∀ (model : Model) (tm : ToolMgr) (ht : Bool) (msgs : List Message)
        (current : List ContentBlock) (n : Nat) (e : String),
      (execute_tool_blocks round_error_text tm current).isEmpty = false →
      model (round_messages tm msgs current) ht = .error e →
      handle_rounds model tm ht (n+1) msgs current
        = (.ok create_error_response,
           [⟨round_messages tm msgs current, ht⟩], tool_calls_of current))
  ∧ (∀ (model : Model) (tm : ToolMgr) (msgs : List Message)
        (content : List ContentBlock) (e : String),
      model (final_messages tm msgs content) false = .error e →
      force_final_text_response model tm msgs content
        = (.ok create_error_response,
           [⟨final_messages tm msgs content, false⟩],
           tool_calls_of content)) := by
  constructor
  · intro model tm ht msgs current n e h1 h2
    simp [handle_rounds, h1, h2]
  · intro model tm msgs content e h
    unfold force_final_text_response
    rw [h]

/-- Witness for the amended C5: a model that raises on the first follow-up
call makes the round loop return the apology after exactly that one failing
call, and a model that raises on the forced final call does the same there. -/
theorem round_model_call_failure_yields_apology_witness :
    handle_rounds fail_after_first ok_mgr true 2 [⟨"user", .text "q"⟩]
        [.toolUse "t" "i" []]
      = (.ok create_error_response,
         [⟨round_messages ok_mgr [⟨"user", .text "q"⟩] [.toolUse "t" "i" []],
            true⟩],
         tool_calls_of [.toolUse "t" "i" []])
  ∧ force_final_text_response fail_model ok_mgr [] []
      = (.ok create_error_response,
         [⟨final_messages ok_mgr [] [], false⟩], tool_calls_of []) := by
  refine ⟨?_, ?_⟩
  · exact (round_model_call_failure_yields_apology).1 fail_after_first ok_mgr
      true [⟨"user", .text "q"⟩] [.toolUse "t" "i" []] 1 "api down"
      (by decide) (by decide)
  · exact (round_model_call_failure_yields_apology).2 fail_model ok_mgr [] []
      "boom" (by decide)

/-- C6 counterexample: a response with an empty content sequence makes the
direct-return path of `generate_response` raise (`content[0]` IndexError)
rather than degrade to the apology — with and without a tool manager. -/
theorem empty_content_direct_path_raises :
    (generate_response empty_model "q" false none).result
      = .error "IndexError: list index out of range"
  ∧ (generate_response empty_model "q" true (some ok_mgr)).result
      = .error "IndexError: list index out of range" := by
  decide

/-- C6 (amended): `_extract_text_response` itself is total — it returns
either the content of some non-empty text block of the response or the fixed
fallback apology — and every path that goes through the tool loop (the paths
that use it) returns a string to the caller, never an exception. -/
theorem extraction_total_on_tool_paths :
    (∀ content : List ContentBlock,
      extract_text_response content = no_text_fallback
      ∨ (ContentBlock.text (extract_text_response content) ∈ content
          ∧ (extract_text_response content).isEmpty = false))
  ∧ (∀ (model : Model) (tm : ToolMgr) (query : String) (tg : Bool)
        (resp : ModelResponse),
      model [⟨"user", .text query⟩] tg = .ok resp →
      resp.stop_reason = "tool_use" →
      ((generate_response model query tg (some tm)).result).isOk
        = true) := by
  constructor
  · intro content
    induction content with
    | nil => left; rfl
    | cons b rest ih =>
      cases b with
      | text s =>
        cases hs : s.isEmpty with
        | true =>
          rcases ih with h | ⟨hmem, hne⟩
          · left
            simpa [extract_text_response, hs] using h
          · right
            refine ⟨?_, ?_⟩
            · simp only [extract_text_response, hs, if_pos]
              exact List.mem_cons_of_mem _ hmem
            · simpa [extract_text_response, hs] using hne
        | false =>
          right
          refine ⟨?_, ?_⟩
          · simp [extract_text_response, hs]
          · simpa [extract_text_response, hs] using hs
      | toolUse name id input =>
        rcases ih with h | ⟨hmem, hne⟩
        · left
          simpa [extract_text_response] using h
        · right
          refine ⟨?_, ?_⟩
          · simp only [extract_text_response]
            exact List.mem_cons_of_mem _ hmem
          · simpa [extract_text_response] using hne
  · intro model tm query tg resp h1 h2
    simp [generate_response, h1, h2, handle_tool_execution,
      handle_rounds_result_isOk]

/-- Witness for the amended C6: a run whose every response requests tools
still hands the caller a plain string. -/
theorem extraction_total_on_tool_paths_witness :
    ((generate_response loop_model "q" true (some ok_mgr)).result).isOk
      = true :=
  (extraction_total_on_tool_paths).2 loop_model ok_mgr "q" true
    ⟨"tool_use", [.toolUse "t" "i" []]⟩ (by decide) (by decide)

/-- C9: with no tool manager supplied, `generate_response` executes no tool
and makes exactly one model call, and — whatever the stop reason, including
`tool_use` — returns the first content block's text directly. -/
theorem no_tool_manager_no_tool_execution (model : Model) (query : String)
    (tg : Bool) :
    (generate_response model query tg none).tool_execs = []
  ∧ (generate_response model query tg none).calls.length = 1
  ∧ ∀ (resp : ModelResponse) (s : String) (rest : List ContentBlock),
      model [⟨"user", .text query⟩] tg = .ok resp →
      resp.content = .text s :: rest →
      (generate_response model query tg none).result = .ok s := by
  refine ⟨?_, ?_, ?_⟩
  · simp only [generate_response]
    split <;> rfl
  · simp only [generate_response]
    split <;> rfl
  · intro resp s rest h1 h2
    simp [generate_response, h1, h2, content_first_text]

/-- Witness for C9: a model that requests a tool is ignored when no tool
manager is supplied — no tool runs, one model call is made, and the leading
text block is returned. -/
theorem no_tool_manager_no_tool_execution_witness :
    (generate_response tool_use_text_model "q" true none).tool_execs = []
  ∧ (generate_response tool_use_text_model "q" true none).calls.length = 1
  ∧ (generate_response tool_use_text_model "q" true none).result
      = .ok "direct answer" := by
  have h := no_tool_manager_no_tool_execution tool_use_text_model "q" true
  exact ⟨h.1, h.2.1,
    h.2.2 ⟨"tool_use", [.text "direct answer", .toolUse "t" "i" []]⟩
      "direct answer" [.toolUse "t" "i" []] (by decide) (by decide)⟩
